import Mathlib

/-!
Verification of the Chim Vulkan renderer (class `chim::Chim`).

The development shallowly embeds the device-selection, swapchain-lifecycle
and per-frame synchronization logic of the source.  Driver-provided values
(acquire/present results, the image list a swapchain reports, the handles
returned by view/framebuffer creation) are supplied as explicit inputs, so
every embedded operation is a pure, executable function.
-/

namespace Chim

/-- The value of std::numeric_limits of uint32_t max, Vulkan's
"undefined extent" sentinel component. -/
def UINT32_MAX : Nat := 4294967295

/-- VkExtent2D: a width/height pair (uint32_t components, modelled as Nat). -/
structure Extent2D where
  width : Nat
  height : Nat
deriving DecidableEq, Repr

/-- Componentwise order on extents. -/
def extentLE (a b : Extent2D) : Prop :=
  a.width ≤ b.width ∧ a.height ≤ b.height

instance (a b : Extent2D) : Decidable (extentLE a b) := by
  unfold extentLE; infer_instance

/-- The fields of VkSurfaceCapabilitiesKHR the source reads. -/
structure SurfaceCapabilities where
  currentExtent : Extent2D
  minImageExtent : Extent2D
  maxImageExtent : Extent2D
  minImageCount : Nat
  maxImageCount : Nat
deriving DecidableEq, Repr

/-- The "undefined extent" sentinel pair (0xFFFFFFFF, 0xFFFFFFFF). -/
def sentinelExtent : Extent2D :=
  { width := UINT32_MAX, height := UINT32_MAX }

/-- std::clamp(v, lo, hi): lo if v < lo, hi if hi < v, otherwise v. -/
def stdClamp (v lo hi : Nat) : Nat :=
  if v < lo then lo else if hi < v then hi else v

/-- Chim::ChooseSwapExtent.  The drawable size reported by
SDL_Vulkan_GetDrawableSize is passed in as `drawableW`, `drawableH`.
If capabilities.currentExtent.width differs from the uint32_t maximum the
surface-reported extent is returned verbatim; otherwise the drawable size is
clamped componentwise into [minImageExtent, maxImageExtent]. -/
def ChooseSwapExtent (caps : SurfaceCapabilities) (drawableW drawableH : Nat) :
    Extent2D :=
  if caps.currentExtent.width ≠ UINT32_MAX then
    caps.currentExtent
  else
    { width := stdClamp drawableW caps.minImageExtent.width caps.maxImageExtent.width
      height := stdClamp drawableH caps.minImageExtent.height caps.maxImageExtent.height }

/-- Chim::CreateSwapChain, lines 760-764: the requested image count is
minImageCount + 1, lowered to maxImageCount when maxImageCount is nonzero
and exceeded. -/
def swapImageCount (caps : SurfaceCapabilities) : Nat :=
  let imageCount := caps.minImageCount + 1
  if caps.maxImageCount > 0 ∧ imageCount > caps.maxImageCount then
    caps.maxImageCount
  else
    imageCount

/-- The image count the spec asks for: clamp(min+1, min, max), where a
maxImageCount of 0 means unbounded.  Written from the spec's words, to be
compared with `swapImageCount`. -/
def imageCountSpec (minC maxC : Nat) : Nat :=
  if maxC = 0 then minC + 1 else stdClamp (minC + 1) minC maxC

/-- A clamp with ordered bounds lands inside them. -/
theorem stdClamp_mem (v lo hi : Nat) (h : lo ≤ hi) :
    lo ≤ stdClamp v lo hi ∧ stdClamp v lo hi ≤ hi := by
  unfold stdClamp
  split
  · exact ⟨le_refl lo, h⟩
  · split
    · exact ⟨h, le_refl hi⟩
    · omega

/-- Surface capabilities for scenario A: minImageCount 2, unbounded max. -/
def capsScenarioA : SurfaceCapabilities :=
  { currentExtent := { width := 1280, height := 720 }
    minImageExtent := { width := 1, height := 1 }
    maxImageExtent := { width := 4096, height := 4096 }
    minImageCount := 2
    maxImageCount := 0 }

/-- Surface capabilities for scenario B: minImageCount 3, maxImageCount 3. -/
def capsScenarioB : SurfaceCapabilities :=
  { currentExtent := { width := 1280, height := 720 }
    minImageExtent := { width := 1, height := 1 }
    maxImageExtent := { width := 4096, height := 4096 }
    minImageCount := 3
    maxImageCount := 3 }

/-- Surface capabilities for scenario C: undefined-extent sentinel, image
extent bounds (1,1) to (4096,4096). -/
def capsScenarioC : SurfaceCapabilities :=
  { currentExtent := sentinelExtent
    minImageExtent := { width := 1, height := 1 }
    maxImageExtent := { width := 4096, height := 4096 }
    minImageCount := 2
    maxImageCount := 0 }

/-- Claim C6: for surface capabilities whose maxImageCount is 0 (unbounded)
or at least minImageCount, the requested swapchain image count equals
clamp(minImageCount + 1, minImageCount, maxImageCount) with 0 read as
unbounded; in scenario A (min 2, max 0) the count is exactly 3 and in
scenario B (min 3, max 3) the request of 4 is clamped down to exactly 3. -/
theorem swapImageCount_spec :
    (∀ caps : SurfaceCapabilities,
      caps.maxImageCount = 0 ∨ caps.minImageCount ≤ caps.maxImageCount →
        swapImageCount caps = imageCountSpec caps.minImageCount caps.maxImageCount)
    ∧ swapImageCount capsScenarioA = 3
    ∧ swapImageCount capsScenarioB = 3 := by
  refine ⟨?_, by decide, by decide⟩
  intro caps h
  simp only [swapImageCount, imageCountSpec, stdClamp]
  split_ifs <;> omega

/-- Witness for C6: the universally quantified part applied to scenario A. -/
theorem swapImageCount_spec_witness :
    swapImageCount capsScenarioA = imageCountSpec 2 0 :=
  swapImageCount_spec.1 capsScenarioA (Or.inl rfl)

/-- When the width component is the sentinel, ChooseSwapExtent clamps the
drawable size. -/
theorem chooseSwapExtent_of_width_eq (caps : SurfaceCapabilities) (dW dH : Nat)
    (hw : caps.currentExtent.width = UINT32_MAX) :
    ChooseSwapExtent caps dW dH =
      { width := stdClamp dW caps.minImageExtent.width caps.maxImageExtent.width
        height := stdClamp dH caps.minImageExtent.height caps.maxImageExtent.height } := by
  unfold ChooseSwapExtent
  simp [hw]

/-- When the width component is not the sentinel, ChooseSwapExtent returns
the surface-reported extent verbatim. -/
theorem chooseSwapExtent_of_width_ne (caps : SurfaceCapabilities) (dW dH : Nat)
    (hw : caps.currentExtent.width ≠ UINT32_MAX) :
    ChooseSwapExtent caps dW dH = caps.currentExtent := by
  unfold ChooseSwapExtent
  simp [hw]

/-- Claim C7: assuming ordered extent bounds and Vulkan-valid capabilities
(currentExtent is either the sentinel pair or a non-sentinel extent lying
within the bounds), the resolved extent always lies in
[minImageExtent, maxImageExtent] componentwise, equals the surface-reported
currentExtent verbatim whenever that extent is not the undefined sentinel,
and equals the clamped drawable size when it is the sentinel; in particular
with the sentinel, drawable (800,600) and bounds (1,1)..(4096,4096) the
resolved extent is exactly (800,600). -/
theorem ChooseSwapExtent_spec (caps : SurfaceCapabilities) (dW dH : Nat)
    (hb : extentLE caps.minImageExtent caps.maxImageExtent)
    (hv : caps.currentExtent = sentinelExtent ∨
      (caps.currentExtent.width ≠ UINT32_MAX ∧
        extentLE caps.minImageExtent caps.currentExtent ∧
        extentLE caps.currentExtent caps.maxImageExtent)) :
    extentLE caps.minImageExtent (ChooseSwapExtent caps dW dH)
    ∧ extentLE (ChooseSwapExtent caps dW dH) caps.maxImageExtent
    ∧ (caps.currentExtent ≠ sentinelExtent →
        ChooseSwapExtent caps dW dH = caps.currentExtent)
    ∧ (caps.currentExtent = sentinelExtent →
        ChooseSwapExtent caps dW dH =
          { width := stdClamp dW caps.minImageExtent.width caps.maxImageExtent.width
            height := stdClamp dH caps.minImageExtent.height caps.maxImageExtent.height }) := by
  rcases hv with hsent | ⟨hne, h1, h2⟩
  · have hw : caps.currentExtent.width = UINT32_MAX := by rw [hsent]; rfl
    rw [chooseSwapExtent_of_width_eq caps dW dH hw]
    refine ⟨?_, ?_, ?_, fun _ => rfl⟩
    · exact ⟨(stdClamp_mem dW _ _ hb.1).1, (stdClamp_mem dH _ _ hb.2).1⟩
    · exact ⟨(stdClamp_mem dW _ _ hb.1).2, (stdClamp_mem dH _ _ hb.2).2⟩
    · intro hne; exact absurd hsent hne
  · rw [chooseSwapExtent_of_width_ne caps dW dH hne]
    refine ⟨h1, h2, fun _ => rfl, fun hs => ?_⟩
    exact absurd (by rw [hs]; rfl) hne

/-- Witness for C7: scenario C resolved to exactly (800,600). -/
theorem ChooseSwapExtent_spec_witness :
    ChooseSwapExtent capsScenarioC 800 600 = { width := 800, height := 600 } := by
  have h := (ChooseSwapExtent_spec capsScenarioC 800 600 (by decide) (Or.inl rfl)).2.2.2 rfl
  rw [h]; decide

/-- Claim C10: ChooseSwapExtent tests only the width component against the
sentinel: when currentExtent.width is 0xFFFFFFFF the clamped drawable size is
substituted regardless of the height, and when the width differs from
0xFFFFFFFF the surface extent is returned verbatim even if its height is
0xFFFFFFFF. -/
theorem ChooseSwapExtent_width_only (caps : SurfaceCapabilities) (dW dH : Nat) :
    (caps.currentExtent.width = UINT32_MAX →
      ChooseSwapExtent caps dW dH =
        { width := stdClamp dW caps.minImageExtent.width caps.maxImageExtent.width
          height := stdClamp dH caps.minImageExtent.height caps.maxImageExtent.height })
    ∧ (caps.currentExtent.width ≠ UINT32_MAX →
      ChooseSwapExtent caps dW dH = caps.currentExtent) :=
  ⟨chooseSwapExtent_of_width_eq caps dW dH, chooseSwapExtent_of_width_ne caps dW dH⟩

/-- Capabilities whose current extent has sentinel width but height 600. -/
def capsWidthSentinel : SurfaceCapabilities :=
  { currentExtent := { width := UINT32_MAX, height := 600 }
    minImageExtent := { width := 1, height := 1 }
    maxImageExtent := { width := 4096, height := 4096 }
    minImageCount := 2
    maxImageCount := 0 }

/-- Capabilities whose current extent has non-sentinel width 1024 but
sentinel height. -/
def capsHeightSentinel : SurfaceCapabilities :=
  { currentExtent := { width := 1024, height := UINT32_MAX }
    minImageExtent := { width := 1, height := 1 }
    maxImageExtent := { width := 4096, height := 4096 }
    minImageCount := 2
    maxImageCount := 0 }

/-- Witness for C10: with sentinel width and height 600 the drawable size is
substituted; with width 1024 and sentinel height the surface extent is
returned verbatim. -/
theorem ChooseSwapExtent_width_only_witness :
    ChooseSwapExtent capsWidthSentinel 800 600 = { width := 800, height := 600 }
    ∧ ChooseSwapExtent capsHeightSentinel 800 600 =
        { width := 1024, height := UINT32_MAX } := by
  constructor
  · have h := (ChooseSwapExtent_width_only capsWidthSentinel 800 600).1 rfl
    rw [h]; decide
  · exact (ChooseSwapExtent_width_only capsHeightSentinel 800 600).2 (by decide)

/-- MAX_FRAMES_IN_FLIGHT, the fixed number of frame slots. -/
def MAX_FRAMES_IN_FLIGHT : Nat := 2

/-- The mutable fields of class Chim that the frame loop and the swapchain
rebuild path touch.  Native handles (images, views, framebuffers, the
swapchain itself) are abstracted as Nat ids; the swapchain handle is bumped
whenever vkCreateSwapchainKHR produces a fresh chain. -/
structure ChimState where
  currentFrame : Nat
  fenceSignaled : List Bool
  frameBufferResized : Bool
  resizeRequested : Bool
  swapChainHandle : Nat
  images : List Nat
  views : List Nat
  framebuffers : List Nat
deriving DecidableEq, Repr

/-- Chim::CreateSwapChain, state part: vkCreateSwapchainKHR yields a fresh
chain handle and vkGetSwapchainImagesKHR fills swap_chain_images_ with the
driver-provided image list (its length may exceed the requested
swapImageCount, so it is an oracle input here). -/
def CreateSwapChain (driverImages : List Nat) (s : ChimState) : ChimState :=
  { s with swapChainHandle := s.swapChainHandle + 1, images := driverImages }

/-- Chim::CreateImageViews: resizes swap_chain_image_views_ to the image
count and creates one view per image (vkCreateImageView output given by the
oracle mkView). -/
def CreateImageViews (mkView : Nat → Nat) (s : ChimState) : ChimState :=
  { s with views := s.images.map mkView }

/-- Chim::CreateFrameBuffers: resizes swap_chain_frame_buffers_ to the view
count and creates one framebuffer per view (vkCreateFramebuffer output given
by the oracle mkFB). -/
def CreateFrameBuffers (mkFB : Nat → Nat) (s : ChimState) : ChimState :=
  { s with framebuffers := s.views.map mkFB }

/-- Chim::CleanupSwapChain destroys the framebuffer, view and swapchain
handles; the vectors themselves are not cleared, so the state is unchanged
in this model. -/
def CleanupSwapChain (s : ChimState) : ChimState := s

/-- Chim::RecreateSwapChain: wait for device idle, clean up the old chain,
then CreateSwapChain, CreateImageViews, CreateFrameBuffers, and clear
frame_buffer_resized_. -/
def RecreateSwapChain (driverImages : List Nat) (mkView mkFB : Nat → Nat)
    (s : ChimState) : ChimState :=
  let s1 := CleanupSwapChain s
  let s2 := CreateFrameBuffers mkFB (CreateImageViews mkView (CreateSwapChain driverImages s1))
  { s2 with frameBufferResized := false }

/-- Outcome of vkAcquireNextImageKHR as branched on by DrawFrame. -/
inductive AcquireResult
  | success
  | suboptimal
  | outOfDate
  | errorOther
deriving DecidableEq, Repr

/-- Outcome of vkQueuePresentKHR as branched on by DrawFrame. -/
inductive PresentResult
  | success
  | suboptimal
  | outOfDate
  | errorOther
deriving DecidableEq, Repr

/-- The observable actions DrawFrame performs, in program order. -/
inductive DrawEvent
  | waitFence (slot : Nat)
  | acquireImage
  | resetFence (slot : Nat)
  | resetCommandBuffer (slot : Nat)
  | recordBuffer (slot : Nat) (image : Nat)
  | submit (slot : Nat)
  | present (image : Nat)
  | recreate
deriving DecidableEq, Repr

/-- Result of one DrawFrame call: the events executed before returning or
throwing, and either the post state or the thrown message. -/
structure DrawResult where
  events : List DrawEvent
  outcome : Except String ChimState
deriving Repr

/-- The end-of-iteration slot advance: current_frame_ + 1 modulo
MAX_FRAMES_IN_FLIGHT. -/
def advanceFrame (s : ChimState) : ChimState :=
  { s with currentFrame := (s.currentFrame + 1) % MAX_FRAMES_IN_FLIGHT }

/-- Chim::DrawFrame.  Driver responses (the acquire result and image index,
whether vkQueueSubmit succeeds, the present result) and the rebuild oracles
are explicit inputs.  The body follows the source line by line: wait on the
slot fence; acquire; on out-of-date recreate the chain and return without
resetting the fence; on any other non-success, non-suboptimal result throw;
otherwise reset the fence and command buffer, record, submit (throw on
failure), present, recreate when the present result is out-of-date or
suboptimal or frame_buffer_resized_ is set, throw on any other present
failure, recreate again when resize_requested_ is set, and advance the
slot index. -/
def DrawFrame (s : ChimState) (acq : AcquireResult) (imageIndex : Nat)
    (submitOk : Bool) (pres : PresentResult)
    (driverImages : List Nat) (mkView mkFB : Nat → Nat) : DrawResult :=
  let cur := s.currentFrame
  let evs := [DrawEvent.waitFence cur, DrawEvent.acquireImage]
  if acq = AcquireResult.outOfDate then
    { events := evs ++ [DrawEvent.recreate]
      outcome := Except.ok (RecreateSwapChain driverImages mkView mkFB s) }
  else if acq ≠ AcquireResult.success ∧ acq ≠ AcquireResult.suboptimal then
    { events := evs, outcome := Except.error "failed to acquire swap chain image!" }
  else
    let s1 : ChimState := { s with fenceSignaled := s.fenceSignaled.set cur false }
    let evs1 := evs ++ [DrawEvent.resetFence cur, DrawEvent.resetCommandBuffer cur,
                        DrawEvent.recordBuffer cur imageIndex]
    if submitOk = false then
      { events := evs1, outcome := Except.error "Failed to submit draw command buffer!" }
    else
      let evs2 := evs1 ++ [DrawEvent.submit cur, DrawEvent.present imageIndex]
      if pres = PresentResult.outOfDate ∨ pres = PresentResult.suboptimal ∨
          s1.frameBufferResized then
        let s2 := RecreateSwapChain driverImages mkView mkFB s1
        let s3 := if s2.resizeRequested then RecreateSwapChain driverImages mkView mkFB s2 else s2
        { events := evs2 ++ [DrawEvent.recreate] ++
            (if s2.resizeRequested then [DrawEvent.recreate] else [])
          outcome := Except.ok (advanceFrame s3) }
      else if pres ≠ PresentResult.success then
        { events := evs2, outcome := Except.error "failed to present swap chain image!" }
      else
        let s3 := if s1.resizeRequested then RecreateSwapChain driverImages mkView mkFB s1 else s1
        { events := evs2 ++ (if s1.resizeRequested then [DrawEvent.recreate] else [])
          outcome := Except.ok (advanceFrame s3) }

/-- Claim C8: after a chain build (CreateSwapChain, CreateImageViews,
CreateFrameBuffers) and after RecreateSwapChain, the image, view and
framebuffer arrays have equal length (each view/framebuffer is produced from
the entry of the previous array at the same index, so they are
index-aligned). -/
theorem chain_arrays_aligned (driverImages : List Nat) (mkView mkFB : Nat → Nat)
    (s : ChimState) :
    ((CreateFrameBuffers mkFB (CreateImageViews mkView (CreateSwapChain driverImages s))).views.length =
        (CreateFrameBuffers mkFB (CreateImageViews mkView (CreateSwapChain driverImages s))).images.length
      ∧ (CreateFrameBuffers mkFB (CreateImageViews mkView (CreateSwapChain driverImages s))).framebuffers.length =
        (CreateFrameBuffers mkFB (CreateImageViews mkView (CreateSwapChain driverImages s))).views.length)
    ∧ ((RecreateSwapChain driverImages mkView mkFB s).views.length =
        (RecreateSwapChain driverImages mkView mkFB s).images.length
      ∧ (RecreateSwapChain driverImages mkView mkFB s).framebuffers.length =
        (RecreateSwapChain driverImages mkView mkFB s).views.length) := by
  simp [CreateFrameBuffers, CreateImageViews, CreateSwapChain, RecreateSwapChain,
    CleanupSwapChain]

/-- The first two events of any DrawFrame call are the fence wait for the
current slot and the acquire. -/
theorem drawFrame_events_take_two (s : ChimState) (acq : AcquireResult)
    (imageIndex : Nat) (submitOk : Bool) (pres : PresentResult)
    (driverImages : List Nat) (mkView mkFB : Nat → Nat) :
    (DrawFrame s acq imageIndex submitOk pres driverImages mkView mkFB).events.take 2 =
      [DrawEvent.waitFence s.currentFrame, DrawEvent.acquireImage] := by
  cases acq <;> cases submitOk <;> cases pres <;>
    by_cases hr : s.frameBufferResized <;> by_cases hq : s.resizeRequested <;>
      simp [DrawFrame, RecreateSwapChain, CleanupSwapChain, CreateSwapChain,
        CreateImageViews, CreateFrameBuffers, hr, hq]

/-- DrawFrame emits a fence reset exactly when the acquire result was
success or suboptimal, and only ever for the current slot. -/
theorem drawFrame_resetFence_iff (s : ChimState) (acq : AcquireResult)
    (imageIndex : Nat) (submitOk : Bool) (pres : PresentResult)
    (driverImages : List Nat) (mkView mkFB : Nat → Nat) :
    (DrawEvent.resetFence s.currentFrame ∈
        (DrawFrame s acq imageIndex submitOk pres driverImages mkView mkFB).events
      ↔ (acq = AcquireResult.success ∨ acq = AcquireResult.suboptimal))
    ∧ (∀ slot, DrawEvent.resetFence slot ∈
        (DrawFrame s acq imageIndex submitOk pres driverImages mkView mkFB).events →
        slot = s.currentFrame) := by
  cases acq <;> cases submitOk <;> cases pres <;>
    by_cases hr : s.frameBufferResized <;> by_cases hq : s.resizeRequested <;>
      simp [DrawFrame, RecreateSwapChain, CleanupSwapChain, CreateSwapChain,
        CreateImageViews, CreateFrameBuffers, hr, hq]

/-- Claim C1: in each DrawFrame iteration the current slot's in-flight fence
is reset exactly when the acquire reported success or suboptimal, never on
out-of-date or any other failure; the reset can only concern the current
slot, and the first two events are always the fence wait and the acquire,
so any reset comes after the acquire. -/
theorem DrawFrame_fence_reset_spec (s : ChimState) (acq : AcquireResult)
    (imageIndex : Nat) (submitOk : Bool) (pres : PresentResult)
    (driverImages : List Nat) (mkView mkFB : Nat → Nat) :
    (DrawEvent.resetFence s.currentFrame ∈
        (DrawFrame s acq imageIndex submitOk pres driverImages mkView mkFB).events
      ↔ (acq = AcquireResult.success ∨ acq = AcquireResult.suboptimal))
    ∧ (∀ slot, DrawEvent.resetFence slot ∈
        (DrawFrame s acq imageIndex submitOk pres driverImages mkView mkFB).events →
        slot = s.currentFrame)
    ∧ (DrawFrame s acq imageIndex submitOk pres driverImages mkView mkFB).events.take 2 =
        [DrawEvent.waitFence s.currentFrame, DrawEvent.acquireImage] :=
  ⟨(drawFrame_resetFence_iff s acq imageIndex submitOk pres driverImages mkView mkFB).1,
   (drawFrame_resetFence_iff s acq imageIndex submitOk pres driverImages mkView mkFB).2,
   drawFrame_events_take_two s acq imageIndex submitOk pres driverImages mkView mkFB⟩

/-- A fully usable initial state: slot 0 current, both fences signaled, no
resize pending, a three-image chain. -/
def initState : ChimState :=
  { currentFrame := 0
    fenceSignaled := [true, true]
    frameBufferResized := false
    resizeRequested := false
    swapChainHandle := 1
    images := [0, 1, 2]
    views := [0, 1, 2]
    framebuffers := [0, 1, 2] }

/-- Witness for C1: with a successful acquire from `initState`, the fence
reset for slot 0 is present in the event list. -/
theorem DrawFrame_fence_reset_spec_witness :
    DrawEvent.resetFence 0 ∈
      (DrawFrame initState AcquireResult.success 0 true PresentResult.success
        [0, 1, 2] id id).events :=
  (DrawFrame_fence_reset_spec initState AcquireResult.success 0 true
    PresentResult.success [0, 1, 2] id id).1.mpr (Or.inl rfl)

/-- Counterexample to claim C2 as stated: from a clean state, an iteration
whose acquire returns suboptimal and whose present succeeds does record,
submit and present, but performs no chain rebuild at all — no recreate event
occurs and the post state differs from the pre state only in the advanced
slot index and the reset fence, keeping the same swapchain handle. -/
theorem DrawFrame_suboptimal_counterexample :
    DrawEvent.present 0 ∈
      (DrawFrame initState AcquireResult.suboptimal 0 true PresentResult.success
        [0, 1, 2] id id).events
    ∧ DrawEvent.recreate ∉
      (DrawFrame initState AcquireResult.suboptimal 0 true PresentResult.success
        [0, 1, 2] id id).events
    ∧ (DrawFrame initState AcquireResult.suboptimal 0 true PresentResult.success
        [0, 1, 2] id id).outcome =
      Except.ok { initState with currentFrame := 1, fenceSignaled := [false, true] } :=
  ⟨by decide, by decide, rfl⟩

/-- Claim C2 as amended: when the acquire returns suboptimal the iteration
proceeds (records, submits and presents), but no rebuild is flagged by the
suboptimal acquire itself — a rebuild happens after presenting exactly when
the present call reports out-of-date or suboptimal, or a resize was
observed, or (on a successful present) the dormant resize_requested_ flag
is set. -/
theorem DrawFrame_suboptimal_spec (s : ChimState) (imageIndex : Nat)
    (pres : PresentResult) (driverImages : List Nat) (mkView mkFB : Nat → Nat) :
    DrawEvent.recordBuffer s.currentFrame imageIndex ∈
      (DrawFrame s AcquireResult.suboptimal imageIndex true pres driverImages mkView mkFB).events
    ∧ DrawEvent.submit s.currentFrame ∈
      (DrawFrame s AcquireResult.suboptimal imageIndex true pres driverImages mkView mkFB).events
    ∧ DrawEvent.present imageIndex ∈
      (DrawFrame s AcquireResult.suboptimal imageIndex true pres driverImages mkView mkFB).events
    ∧ (DrawEvent.recreate ∈
        (DrawFrame s AcquireResult.suboptimal imageIndex true pres driverImages mkView mkFB).events
      ↔ (pres = PresentResult.outOfDate ∨ pres = PresentResult.suboptimal ∨
          s.frameBufferResized = true ∨
          (pres = PresentResult.success ∧ s.resizeRequested = true))) := by
  cases pres <;>
    by_cases hr : s.frameBufferResized <;> by_cases hq : s.resizeRequested <;>
      simp [DrawFrame, RecreateSwapChain, CleanupSwapChain, CreateSwapChain,
        CreateImageViews, CreateFrameBuffers, hr, hq]

/-- Witness for C2 (amended): from `initState` with a suboptimal acquire and
a suboptimal present, a rebuild does occur after presenting. -/
theorem DrawFrame_suboptimal_spec_witness :
    DrawEvent.recreate ∈
      (DrawFrame initState AcquireResult.suboptimal 0 true PresentResult.suboptimal
        [0, 1, 2] id id).events :=
  (DrawFrame_suboptimal_spec initState 0 PresentResult.suboptimal
    [0, 1, 2] id id).2.2.2.mpr (Or.inr (Or.inl rfl))

/-- Claim C3: when the acquire reports out-of-date the iteration does
nothing but wait, acquire and rebuild — no record, submit or present — the
slot index is left unchanged, the swapchain is freshly rebuilt (new handle,
driver-provided images), and a following iteration with a successful acquire
against the rebuilt chain records, submits, presents and completes; any
acquire failure other than out-of-date or suboptimal throws. -/
theorem DrawFrame_out_of_date_spec (s : ChimState) (imageIndex : Nat)
    (submitOk : Bool) (pres : PresentResult) (driverImages : List Nat)
    (mkView mkFB : Nat → Nat) :
    (DrawFrame s AcquireResult.outOfDate imageIndex submitOk pres driverImages mkView mkFB).events =
      [DrawEvent.waitFence s.currentFrame, DrawEvent.acquireImage, DrawEvent.recreate]
    ∧ (DrawFrame s AcquireResult.outOfDate imageIndex submitOk pres driverImages mkView mkFB).outcome =
      Except.ok (RecreateSwapChain driverImages mkView mkFB s)
    ∧ (RecreateSwapChain driverImages mkView mkFB s).currentFrame = s.currentFrame
    ∧ (RecreateSwapChain driverImages mkView mkFB s).swapChainHandle = s.swapChainHandle + 1
    ∧ (RecreateSwapChain driverImages mkView mkFB s).images = driverImages
    ∧ DrawEvent.present imageIndex ∈
      (DrawFrame (RecreateSwapChain driverImages mkView mkFB s) AcquireResult.success
        imageIndex true PresentResult.success driverImages mkView mkFB).events
    ∧ (∃ s2, (DrawFrame (RecreateSwapChain driverImages mkView mkFB s) AcquireResult.success
        imageIndex true PresentResult.success driverImages mkView mkFB).outcome = Except.ok s2)
    ∧ (DrawFrame s AcquireResult.errorOther imageIndex submitOk pres driverImages mkView mkFB).outcome =
      Except.error "failed to acquire swap chain image!" := by
  by_cases hq : s.resizeRequested <;>
    simp [DrawFrame, RecreateSwapChain, CleanupSwapChain, CreateSwapChain,
      CreateImageViews, CreateFrameBuffers, hq]

/-- The adapter kinds RateDeviceSuitability distinguishes. -/
inductive VkPhysicalDeviceType
  | discreteGpu
  | integratedGpu
  | virtualGpu
  | cpu
  | otherType
deriving DecidableEq, Repr

/-- One queue family, with the two capabilities FindQueueFamilies queries:
the graphics bit of queueFlags and presentation support to the surface. -/
structure QueueFamily where
  graphicsBit : Bool
  presentSupport : Bool
deriving DecidableEq, Repr

/-- The facets of a physical device the selection code reads: properties
(type, limits), features (geometry shader), queue families, device
extensions, and the surface formats / present modes it supports. -/
structure PhysicalDevice where
  deviceType : VkPhysicalDeviceType
  maxImageDimension2D : Nat
  geometryShader : Bool
  queueFamilies : List QueueFamily
  extensions : List String
  formats : List Nat
  presentModes : List Nat
deriving DecidableEq, Repr

/-- chim::QueueFamilyIndices. -/
structure QueueFamilyIndices where
  graphicsFamily : Option Nat
  presentFamily : Option Nat
deriving DecidableEq, Repr

/-- QueueFamilyIndices::isComplete. -/
def QueueFamilyIndices.isComplete (q : QueueFamilyIndices) : Bool :=
  q.graphicsFamily.isSome && q.presentFamily.isSome

/-- The loop body of Chim::FindQueueFamilies: scan families in order,
recording the index of any graphics-capable family and of any
present-capable family, stopping early once both are found. -/
def findQueueFamiliesGo : List QueueFamily → Nat → QueueFamilyIndices → QueueFamilyIndices
  | [], _, ind => ind
  | qf :: rest, i, ind =>
    let ind1 := if qf.graphicsBit then { ind with graphicsFamily := some i } else ind
    let ind2 := if qf.presentSupport then { ind1 with presentFamily := some i } else ind1
    if ind2.isComplete then ind2 else findQueueFamiliesGo rest (i + 1) ind2

/-- Chim::FindQueueFamilies. -/
def FindQueueFamilies (d : PhysicalDevice) : QueueFamilyIndices :=
  findQueueFamiliesGo d.queueFamilies 0 { graphicsFamily := none, presentFamily := none }

/-- The required device extension list: the swapchain extension. -/
def device_extensions : List String := ["VK_KHR_swapchain"]

/-- Chim::CheckDeviceExtensionSupport: every required extension occurs among
the device's available extensions (the source erases available names from
the required set and tests emptiness). -/
def CheckDeviceExtensionSupport (d : PhysicalDevice) : Bool :=
  (device_extensions.filter (fun e => !(d.extensions.contains e))).isEmpty

/-- Chim::IsDeviceSuitable: complete queue family indices, the swapchain
extension, and at least one surface format and one present mode. -/
def IsDeviceSuitable (d : PhysicalDevice) : Bool :=
  let indices := FindQueueFamilies d
  let extensionsSupported := CheckDeviceExtensionSupport d
  let swapChainAdequate :=
    if extensionsSupported then !d.formats.isEmpty && !d.presentModes.isEmpty else false
  indices.isComplete && extensionsSupported && swapChainAdequate

/-- Chim::RateDeviceSuitability: 0 for unsuitable devices; otherwise 1000
for a discrete GPU plus maxImageDimension2D, forced to 0 when geometry
shaders are missing. -/
def RateDeviceSuitability (d : PhysicalDevice) : Int :=
  if !IsDeviceSuitable d then 0
  else
    let score : Int := if d.deviceType = VkPhysicalDeviceType.discreteGpu then 1000 else 0
    let score := score + d.maxImageDimension2D
    if !d.geometryShader then 0 else score

/-- std::multimap insertion at the upper bound of the key: the pair goes
immediately before the first element with a strictly greater key, hence
after all elements with an equal key (stable among equal keys). -/
def mmInsert (p : Int × PhysicalDevice) :
    List (Int × PhysicalDevice) → List (Int × PhysicalDevice)
  | [] => [p]
  | q :: rest => if p.1 < q.1 then p :: q :: rest else q :: mmInsert p rest

/-- The two failure exceptions Chim::PickPhysicalDevice can throw. -/
inductive PickError
  | noVulkanGPUs
  | noSuitableGPU
deriving DecidableEq, Repr

/-- Chim::PickPhysicalDevice: throw when no device is enumerated; otherwise
insert every (score, device) pair into a multimap ordered by increasing
score and take the entry rbegin points at (the greatest key, last inserted
among equal keys), requiring its score to be positive. -/
def PickPhysicalDevice (devices : List PhysicalDevice) : Except PickError PhysicalDevice :=
  if devices.isEmpty then Except.error PickError.noVulkanGPUs
  else
    let candidates := devices.foldl (fun acc d => mmInsert (RateDeviceSuitability d, d) acc) []
    match candidates.getLast? with
    | none => Except.error PickError.noSuitableGPU
    | some (score, dev) =>
        if score > 0 then Except.ok dev else Except.error PickError.noSuitableGPU

/-- One step of the best-candidate scan: keep the running best, replacing it
whenever the new device scores at least as much (so the last device in
enumeration order wins among equal top scores). -/
def bestStep (best : Option (Int × PhysicalDevice)) (d : PhysicalDevice) :
    Option (Int × PhysicalDevice) :=
  match best with
  | none => some (RateDeviceSuitability d, d)
  | some q =>
      if q.1 ≤ RateDeviceSuitability d then some (RateDeviceSuitability d, d) else some q

/-- The highest-scoring candidate, ties broken towards the last device in
enumeration order. -/
def bestCandidate (devices : List PhysicalDevice) : Option (Int × PhysicalDevice) :=
  devices.foldl bestStep none

/-- Device selection as the spec words it: the highest-scored candidate with
a deterministic enumeration-order tie-break, failing when no device exists
or no candidate scores above zero.  Written from the spec, to be compared
with `PickPhysicalDevice`. -/
def selectDeviceSpec (devices : List PhysicalDevice) : Except PickError PhysicalDevice :=
  match bestCandidate devices with
  | none => Except.error PickError.noVulkanGPUs
  | some (score, dev) =>
      if score > 0 then Except.ok dev else Except.error PickError.noSuitableGPU

/-- Keys weakly increase along the list, the std::multimap iteration
order invariant. -/
def KSorted (l : List (Int × PhysicalDevice)) : Prop :=
  l.Pairwise (fun a b => a.1 ≤ b.1)

/-- Every member of an insertion result is the inserted pair or an old
member. -/
theorem mmInsert_mem (p : Int × PhysicalDevice) (l : List (Int × PhysicalDevice))
    (x : Int × PhysicalDevice) (hx : x ∈ mmInsert p l) : x = p ∨ x ∈ l := by
  induction l with
  | nil => simpa [mmInsert] using hx
  | cons q rest ih =>
    unfold mmInsert at hx
    split at hx
    · rcases List.mem_cons.mp hx with h | h
      · exact Or.inl h
      · exact Or.inr h
    · rcases List.mem_cons.mp hx with h | h
      · exact Or.inr (List.mem_cons.mpr (Or.inl h))
      · rcases ih h with h' | h'
        · exact Or.inl h'
        · exact Or.inr (List.mem_cons.mpr (Or.inr h'))

/-- Insertion at the upper bound preserves the multimap order invariant. -/
theorem mmInsert_sorted (p : Int × PhysicalDevice) (l : List (Int × PhysicalDevice))
    (h : KSorted l) : KSorted (mmInsert p l) := by
  induction l with
  | nil => simp [mmInsert, KSorted]
  | cons q rest ih =>
    rcases List.pairwise_cons.mp h with ⟨hq, hrest⟩
    unfold mmInsert
    split
    · rename_i hlt
      refine List.pairwise_cons.mpr ⟨?_, h⟩
      intro b hb
      rcases List.mem_cons.mp hb with rfl | hb'
      · exact le_of_lt hlt
      · exact le_trans (le_of_lt hlt) (hq b hb')
    · rename_i hge
      refine List.pairwise_cons.mpr ⟨?_, ih hrest⟩
      intro b hb
      rcases mmInsert_mem p rest b hb with rfl | hb'
      · omega
      · exact hq b hb'

/-- The last element after inserting into a key-sorted list: the new pair if
its key is at least the old last key (or the list was empty), otherwise the
old last element. -/
theorem mmInsert_getLast (p : Int × PhysicalDevice) (l : List (Int × PhysicalDevice))
    (h : KSorted l) :
    (mmInsert p l).getLast? =
      match l.getLast? with
      | none => some p
      | some q => if q.1 ≤ p.1 then some p else some q := by
  induction l with
  | nil => simp [mmInsert]
  | cons q rest ih =>
    rcases List.pairwise_cons.mp h with ⟨hq, hrest⟩
    unfold mmInsert
    split
    · rename_i hlt
      cases rest with
      | nil =>
        simp only [List.getLast?_cons_cons, List.getLast?_singleton]
        rw [if_neg (by omega)]
      | cons r rs =>
        have hmem : (r :: rs).getLast (by simp) ∈ r :: rs := List.getLast_mem _
        have hlast : (r :: rs).getLast? = some ((r :: rs).getLast (by simp)) :=
          List.getLast?_eq_getLast _ (by simp)
        have hle : q.1 ≤ ((r :: rs).getLast (by simp)).1 := hq _ hmem
        simp only [List.getLast?_cons_cons, hlast]
        rw [if_neg (by omega)]
    · rename_i hge
      cases rest with
      | nil =>
        simp only [mmInsert, List.getLast?_cons_cons, List.getLast?_singleton]
        rw [if_pos (by omega)]
      | cons r rs =>
        have hne : mmInsert p (r :: rs) ≠ [] := by
          unfold mmInsert; split <;> simp
        obtain ⟨a, as, ha⟩ := List.exists_cons_of_ne_nil hne
        rw [ha, List.getLast?_cons_cons, ← ha, ih hrest, List.getLast?_cons_cons]

/-- Pushing every scored device through the multimap and reading the last
entry computes the same option as the direct best-candidate scan. -/
theorem foldl_mmInsert_getLast (devices : List PhysicalDevice) :
    ∀ acc, KSorted acc →
      (devices.foldl (fun a d => mmInsert (RateDeviceSuitability d, d) a) acc).getLast? =
        devices.foldl bestStep acc.getLast? := by
  induction devices with
  | nil => intro acc _; rfl
  | cons d ds ih =>
    intro acc h
    simp only [List.foldl_cons]
    rw [ih _ (mmInsert_sorted _ _ h), mmInsert_getLast _ _ h]
    rfl

/-- The best-candidate scan never discards an existing candidate. -/
theorem foldl_bestStep_some (ds : List PhysicalDevice) :
    ∀ q : Int × PhysicalDevice, ∃ q', ds.foldl bestStep (some q) = some q' := by
  induction ds with
  | nil => intro q; exact ⟨q, rfl⟩
  | cons d ds ih =>
    intro q
    simp only [List.foldl_cons, bestStep]
    split <;> apply ih

/-- What the best-candidate scan returns: a member whose score it reports
faithfully and which no scanned device outscores. -/
theorem foldl_bestStep_spec (devices : List PhysicalDevice) :
    ∀ (o : Option (Int × PhysicalDevice)) (sc : Int) (dev : PhysicalDevice),
      devices.foldl bestStep o = some (sc, dev) →
      (o = some (sc, dev) ∨ (dev ∈ devices ∧ RateDeviceSuitability dev = sc))
      ∧ (∀ d ∈ devices, RateDeviceSuitability d ≤ sc)
      ∧ (∀ p : Int × PhysicalDevice, o = some p → p.1 ≤ sc) := by
  induction devices with
  | nil =>
    intro o sc dev h
    simp only [List.foldl_nil] at h
    refine ⟨Or.inl h, by simp, ?_⟩
    intro p hp
    rw [h] at hp
    obtain rfl : (sc, dev) = p := Option.some.inj hp
    exact le_refl _
  | cons d ds ih =>
    intro o sc dev h
    simp only [List.foldl_cons] at h
    obtain ⟨ho, hds, hprev⟩ := ih (bestStep o d) sc dev h
    have hd : RateDeviceSuitability d ≤ sc := by
      cases o with
      | none => exact hprev (RateDeviceSuitability d, d) rfl
      | some q =>
        by_cases hc : q.1 ≤ RateDeviceSuitability d
        · exact hprev (RateDeviceSuitability d, d) (by simp [bestStep, hc])
        · have hq := hprev q (by simp [bestStep, hc])
          omega
    refine ⟨?_, ?_, ?_⟩
    · rcases ho with ho | ⟨hmem, hrate⟩
      · cases o with
        | none =>
          obtain ⟨h1, h2⟩ := Prod.mk.injEq .. ▸ Option.some.inj ho
          exact Or.inr ⟨h2 ▸ List.mem_cons_self d ds, h2 ▸ h1⟩
        | some q =>
          by_cases hc : q.1 ≤ RateDeviceSuitability d
          · have ho' : some (RateDeviceSuitability d, d) = some (sc, dev) := by
              simpa [bestStep, hc] using ho
            obtain ⟨h1, h2⟩ := Prod.mk.injEq .. ▸ Option.some.inj ho'
            exact Or.inr ⟨h2 ▸ List.mem_cons_self d ds, h2 ▸ h1⟩
          · have ho' : some q = some (sc, dev) := by
              simpa [bestStep, hc] using ho
            exact Or.inl ho'
      · exact Or.inr ⟨List.mem_cons.mpr (Or.inr hmem), hrate⟩
    · intro d' hd'
      rcases List.mem_cons.mp hd' with rfl | hmem
      · exact hd
      · exact hds d' hmem
    · intro p hp
      subst hp
      by_cases hc : p.1 ≤ RateDeviceSuitability d
      · exact le_trans hc hd
      · exact hprev p (by simp [bestStep, hc])

/-- PickPhysicalDevice computes the same result as the spec-level
highest-score selection with last-of-the-ties tie-break. -/
theorem pick_eq_selectDeviceSpec (devices : List PhysicalDevice) :
    PickPhysicalDevice devices = selectDeviceSpec devices := by
  cases devices with
  | nil => rfl
  | cons d ds =>
    obtain ⟨⟨sc, dev⟩, hq⟩ := foldl_bestStep_some ds (RateDeviceSuitability d, d)
    have hcand :
        (ds.foldl (fun acc d => mmInsert (RateDeviceSuitability d, d) acc)
            [(RateDeviceSuitability d, d)]).getLast? = some (sc, dev) := by
      rw [foldl_mmInsert_getLast ds [(RateDeviceSuitability d, d)] (by simp [KSorted])]
      simpa using hq
    unfold PickPhysicalDevice selectDeviceSpec bestCandidate
    simp only [List.isEmpty_cons, Bool.false_eq_true, if_false, List.foldl_cons,
      mmInsert, bestStep, hq, hcand]

/-- An integrated adapter, maxImageDimension2D 8192, meeting every minimum
requirement IsDeviceSuitable checks but lacking geometry shaders. -/
def integratedNoGeometry : PhysicalDevice :=
  { deviceType := VkPhysicalDeviceType.integratedGpu
    maxImageDimension2D := 8192
    geometryShader := false
    queueFamilies := [{ graphicsBit := true, presentSupport := true }]
    extensions := ["VK_KHR_swapchain"]
    formats := [0]
    presentModes := [0] }

/-- A discrete adapter, maxImageDimension2D 4096, fully suitable and with
geometry shaders. -/
def discreteWithGeometry : PhysicalDevice :=
  { deviceType := VkPhysicalDeviceType.discreteGpu
    maxImageDimension2D := 4096
    geometryShader := true
    queueFamilies := [{ graphicsBit := true, presentSupport := true }]
    extensions := ["VK_KHR_swapchain"]
    formats := [0]
    presentModes := [0] }

/-- Counterexample to claim C4 as stated: `integratedNoGeometry` meets every
minimum requirement the claim lists (graphics queue family, presentation
queue family, swapchain extension, a surface format and a present mode), yet
selection over the one-device list containing it does not pick it — it
scores zero for the missing geometry-shader feature and selection fails. -/
theorem PickPhysicalDevice_counterexample :
    IsDeviceSuitable integratedNoGeometry = true
    ∧ PickPhysicalDevice [integratedNoGeometry] =
        Except.error PickError.noSuitableGPU := by
  constructor
  · rfl
  · rfl

/-- Claim C4 as amended: for every device list containing at least one
adapter of positive score (minimum requirements plus the required
geometry-shader feature and a nonzero rating), selection returns a
highest-scored member of the list; the empty enumeration fails with the
no-Vulkan-GPUs error, and a nonempty list where every adapter scores zero
fails with the no-suitable-device error. -/
theorem PickPhysicalDevice_spec (devices : List PhysicalDevice) :
    ((∃ d ∈ devices, 0 < RateDeviceSuitability d) →
      ∃ dev, PickPhysicalDevice devices = Except.ok dev ∧ dev ∈ devices ∧
        ∀ d ∈ devices, RateDeviceSuitability d ≤ RateDeviceSuitability dev)
    ∧ PickPhysicalDevice [] = Except.error PickError.noVulkanGPUs
    ∧ (devices ≠ [] → (∀ d ∈ devices, RateDeviceSuitability d = 0) →
        PickPhysicalDevice devices = Except.error PickError.noSuitableGPU) := by
  refine ⟨?_, rfl, ?_⟩
  · rintro ⟨d0, hd0, hpos⟩
    obtain ⟨d1, ds, rfl⟩ : ∃ d1 ds, devices = d1 :: ds := by
      cases devices with
      | nil => cases hd0
      | cons d1 ds => exact ⟨d1, ds, rfl⟩
    obtain ⟨⟨sc, dev⟩, hq⟩ := foldl_bestStep_some ds (RateDeviceSuitability d1, d1)
    have hfold : (d1 :: ds).foldl bestStep none = some (sc, dev) := by
      simpa [bestStep] using hq
    obtain ⟨ho, hmax, _⟩ := foldl_bestStep_spec (d1 :: ds) none sc dev hfold
    rcases ho with ho | ⟨hmem, hrate⟩
    · cases ho
    · have hsc : 0 < sc := lt_of_lt_of_le hpos (hmax d0 hd0)
      refine ⟨dev, ?_, hmem, ?_⟩
      · rw [pick_eq_selectDeviceSpec]
        unfold selectDeviceSpec bestCandidate
        rw [hfold]
        simp [hsc]
      · intro d hd
        rw [hrate]
        exact hmax d hd
  · intro hne hzero
    obtain ⟨d1, ds, rfl⟩ : ∃ d1 ds, devices = d1 :: ds := by
      cases devices with
      | nil => exact absurd rfl hne
      | cons d1 ds => exact ⟨d1, ds, rfl⟩
    obtain ⟨⟨sc, dev⟩, hq⟩ := foldl_bestStep_some ds (RateDeviceSuitability d1, d1)
    have hfold : (d1 :: ds).foldl bestStep none = some (sc, dev) := by
      simpa [bestStep] using hq
    obtain ⟨ho, _, _⟩ := foldl_bestStep_spec (d1 :: ds) none sc dev hfold
    rcases ho with ho | ⟨hmem, hrate⟩
    · cases ho
    · have hsc : sc = 0 := by rw [← hrate]; exact hzero dev hmem
      rw [pick_eq_selectDeviceSpec]
      unfold selectDeviceSpec bestCandidate
      rw [hfold]
      simp [hsc]

/-- Witness for C4 (amended): a singleton list holding the positive-scoring
discrete adapter makes selection succeed with a maximal-score member. -/
theorem PickPhysicalDevice_spec_witness :
    ∃ dev, PickPhysicalDevice [discreteWithGeometry] = Except.ok dev ∧
      dev ∈ [discreteWithGeometry] ∧
      ∀ d ∈ [discreteWithGeometry],
        RateDeviceSuitability d ≤ RateDeviceSuitability dev :=
  (PickPhysicalDevice_spec [discreteWithGeometry]).1
    ⟨discreteWithGeometry, by simp, by decide⟩

/-- Score formula for a suitable, geometry-capable device. -/
theorem rate_eq (d : PhysicalDevice) (hsuit : IsDeviceSuitable d = true)
    (hg : d.geometryShader = true) :
    RateDeviceSuitability d =
      (if d.deviceType = VkPhysicalDeviceType.discreteGpu then (1000 : Int) else 0) +
        d.maxImageDimension2D := by
  simp [RateDeviceSuitability, hsuit, hg]

/-- Claim C5: scoring grants discrete adapters a fixed 1000-point bonus over
integrated ones (all else equal), is monotone in maxImageDimension2D, and is
exactly zero whenever geometry shaders are missing; consequently in scenario
E the discrete 4096 adapter with geometry shaders is selected over the
integrated 8192 one without them. -/
theorem RateDeviceSuitability_spec :
    (∀ d : PhysicalDevice, IsDeviceSuitable d = true → d.geometryShader = true →
      RateDeviceSuitability { d with deviceType := VkPhysicalDeviceType.discreteGpu } =
        RateDeviceSuitability { d with deviceType := VkPhysicalDeviceType.integratedGpu } + 1000)
    ∧ (∀ (d : PhysicalDevice) (m m' : Nat), m ≤ m' →
      RateDeviceSuitability { d with maxImageDimension2D := m } ≤
        RateDeviceSuitability { d with maxImageDimension2D := m' })
    ∧ (∀ d : PhysicalDevice, d.geometryShader = false → RateDeviceSuitability d = 0)
    ∧ PickPhysicalDevice [integratedNoGeometry, discreteWithGeometry] =
        Except.ok discreteWithGeometry := by
  refine ⟨?_, ?_, ?_, by rfl⟩
  · intro d hsuit hg
    rw [rate_eq { d with deviceType := VkPhysicalDeviceType.discreteGpu } hsuit hg,
        rate_eq { d with deviceType := VkPhysicalDeviceType.integratedGpu } hsuit hg]
    simp
    omega
  · intro d m m' hm
    have hs1 : IsDeviceSuitable { d with maxImageDimension2D := m } =
        IsDeviceSuitable d := rfl
    have hs2 : IsDeviceSuitable { d with maxImageDimension2D := m' } =
        IsDeviceSuitable d := rfl
    simp only [RateDeviceSuitability, hs1, hs2]
    split_ifs <;> simp_all
  · intro d hg
    simp [RateDeviceSuitability, hg]

/-- Witness for C5: the bonus and monotonicity clauses instantiated on the
concrete suitable adapter. -/
theorem RateDeviceSuitability_spec_witness :
    RateDeviceSuitability
        { discreteWithGeometry with deviceType := VkPhysicalDeviceType.discreteGpu } =
      RateDeviceSuitability
        { discreteWithGeometry with deviceType := VkPhysicalDeviceType.integratedGpu } + 1000
    ∧ RateDeviceSuitability { discreteWithGeometry with maxImageDimension2D := 100 } ≤
        RateDeviceSuitability { discreteWithGeometry with maxImageDimension2D := 200 } :=
  ⟨RateDeviceSuitability_spec.1 discreteWithGeometry rfl rfl,
   RateDeviceSuitability_spec.2.1 discreteWithGeometry 100 200 (by decide)⟩

/-- Claim C9: device selection is a pure function of the enumerated list, so
two runs over the same list agree; it coincides with the spec-level
selection `selectDeviceSpec`, whose tie-break keeps, among equal top scores,
the candidate inserted last in enumeration order — exactly the entry
std::multimap's reverse iterator reaches, since insertion is stable among
equal keys. -/
theorem PickPhysicalDevice_deterministic (devices : List PhysicalDevice) :
    PickPhysicalDevice devices = selectDeviceSpec devices :=
  pick_eq_selectDeviceSpec devices

end Chim
